import Mathlib

/-!
# go-epoll: the `Instance` wrapper over `unix.Epoll*`

Shallow embedding of `epoll.go`.  The package is a set of one-line forwards to
`golang.org/x/sys/unix`; that package and the kernel behind it are not part of
the repository, so every wrapper takes the three calls it uses as a parameter
(`Unix σ`, a state-passing interface over an arbitrary kernel state `σ`).

Conventions
* a Go `error` is `Option Errno`, `none` being `nil`;
* a Go pointer that may be `nil` is an `Option`;
* Go `int` is `Int`, `uint32` is `Nat`, and the one narrowing conversion of the
  package (`int32(fd)` in `MakeEvent`) is written out with `% 2 ^ 32`;
* the receiver `i *Instance` of a method is taken dereferenced (a `nil`
  receiver is a run-time fault of `i.Fd`, outside every statement below).
-/

namespace Epoll

/-! ## Data model -/

/-- A `unix.Errno` value; a Go `error` result is `Option Errno` with `none` for `nil`. -/
abbrev Errno := Nat

/-- The struct `unix.EpollEvent` (linux/amd64 layout): `Events uint32`, `Fd int32`, `Pad int32`. -/
structure EpollEvent where
  Events : Nat
  Fd : Int
  Pad : Int
  deriving DecidableEq

/-- The epoll instance: `type Instance struct { Fd int }`. -/
structure Instance where
  Fd : Int
  deriving DecidableEq

/-- Value of `unix.EPOLL_CTL_ADD`. -/
def EPOLL_CTL_ADD : Int := 1

/-- Value of `unix.EPOLL_CTL_DEL`. -/
def EPOLL_CTL_DEL : Int := 2

/-- Value of `unix.EPOLL_CTL_MOD`. -/
def EPOLL_CTL_MOD : Int := 3

/-- The three calls of `golang.org/x/sys/unix` the package uses, as functions of a
kernel state `σ`.  `EpollWait` also hands back the contents of the caller's
`events` slice after the call (the kernel writes into it) and is `none` when the
call never returns. -/
structure Unix (σ : Type) where
  EpollCreate1 : σ → Int → σ × Int × Option Errno
  EpollCtl : σ → Int → Int → Int → Option EpollEvent → σ × Option Errno
  EpollWait : σ → Int → List EpollEvent → Int → Option (σ × List EpollEvent × Int × Option Errno)

/-- One call made to `golang.org/x/sys/unix`, with the arguments it was handed. -/
inductive Syscall where
  | epollCreate1 (flags : Int)
  | epollCtl (epfd op fd : Int) (ev : Option EpollEvent)
  | epollWait (epfd : Int) (events : List EpollEvent) (msec : Int)
  deriving DecidableEq

/-- The same kernel with a journal: every call is appended, with its arguments, to
the list carried next to the kernel state, and answers what `k` answers. -/
def Unix.logged {σ : Type} (k : Unix σ) : Unix (σ × List Syscall) where
  EpollCreate1 := fun s flags =>
    let r := k.EpollCreate1 s.1 flags
    ((r.1, s.2 ++ [Syscall.epollCreate1 flags]), r.2)
  EpollCtl := fun s epfd op fd ev =>
    let r := k.EpollCtl s.1 epfd op fd ev
    ((r.1, s.2 ++ [Syscall.epollCtl epfd op fd ev]), r.2)
  EpollWait := fun s epfd events msec =>
    (k.EpollWait s.1 epfd events msec).map
      (fun r => ((r.1, s.2 ++ [Syscall.epollWait epfd events msec]), r.2))

/-! ## The package -/

/-- `func NewInstance(flags int) (i *Instance, err error)`:
`i = &Instance{}; i.Fd, err = unix.EpollCreate1(flags); return`. -/
def NewInstance {σ : Type} (k : Unix σ) (s : σ) (flags : Int) :
    σ × Option Instance × Option Errno :=
  let i : Instance := { Fd := 0 }
  let r := k.EpollCreate1 s flags
  let i : Instance := { i with Fd := r.2.1 }
  (r.1, some i, r.2.2)

/-- `func (i *Instance) Ctl(op, fd int, ev *unix.EpollEvent) (err error)`:
`err = unix.EpollCtl(i.Fd, op, fd, ev); return`. -/
def Instance.Ctl {σ : Type} (k : Unix σ) (s : σ) (i : Instance) (op fd : Int)
    (ev : Option EpollEvent) : σ × Option Errno :=
  k.EpollCtl s i.Fd op fd ev

/-- `func (i *Instance) Add(fd int, ev *unix.EpollEvent) (err error)`:
`err = i.Ctl(unix.EPOLL_CTL_ADD, fd, ev); return`. -/
def Instance.Add {σ : Type} (k : Unix σ) (s : σ) (i : Instance) (fd : Int)
    (ev : Option EpollEvent) : σ × Option Errno :=
  i.Ctl k s EPOLL_CTL_ADD fd ev

/-- `func (i *Instance) Mod(fd int, ev *unix.EpollEvent) (err error)`:
`err = i.Ctl(unix.EPOLL_CTL_MOD, fd, ev); return`. -/
def Instance.Mod {σ : Type} (k : Unix σ) (s : σ) (i : Instance) (fd : Int)
    (ev : Option EpollEvent) : σ × Option Errno :=
  i.Ctl k s EPOLL_CTL_MOD fd ev

/-- `func (i *Instance) Del(fd int, ev *unix.EpollEvent) (err error)`:
`err = i.Ctl(unix.EPOLL_CTL_DEL, fd, ev); return`. -/
def Instance.Del {σ : Type} (k : Unix σ) (s : σ) (i : Instance) (fd : Int)
    (ev : Option EpollEvent) : σ × Option Errno :=
  i.Ctl k s EPOLL_CTL_DEL fd ev

/-- `func (i *Instance) Wait(events []unix.EpollEvent, timeout int) (n int, err error)`:
`n, err = unix.EpollWait(i.Fd, events, timeout); return`. -/
def Instance.Wait {σ : Type} (k : Unix σ) (s : σ) (i : Instance)
    (events : List EpollEvent) (timeout : Int) :
    Option (σ × List EpollEvent × Int × Option Errno) :=
  k.EpollWait s i.Fd events timeout

/-- The Go conversion `int32(x)` of an `int`: the low 32 bits, read in two's complement. -/
def toInt32 (x : Int) : Int :=
  (x + 2 ^ 31) % 2 ^ 32 - 2 ^ 31

/-- `func MakeEvent(fd int, events uint32) (ev *unix.EpollEvent)`:
`ev = &unix.EpollEvent{Events: events, Fd: int32(fd)}; return`. -/
def MakeEvent (fd : Int) (events : Nat) : Option EpollEvent :=
  some { Events := events, Fd := toInt32 fd, Pad := 0 }

/-! ## A model of the kernel behind `unix.Epoll*` -/

/-- Value of `unix.ENOENT`. -/
def ENOENT : Errno := 2

/-- Value of `unix.EINTR`. -/
def EINTR : Errno := 4

/-- Value of `unix.EBADF`. -/
def EBADF : Errno := 9

/-- Value of `unix.EFAULT`. -/
def EFAULT : Errno := 14

/-- Value of `unix.EEXIST`. -/
def EEXIST : Errno := 17

/-- Value of `unix.EINVAL`. -/
def EINVAL : Errno := 22

/-- Value of `unix.EMFILE`. -/
def EMFILE : Errno := 24

/-- Value of `unix.EPOLL_CLOEXEC`. -/
def EPOLL_CLOEXEC : Int := 524288

/-- Value of `unix.EPOLLIN`. -/
def EPOLLIN : Nat := 1

/-- Value of `unix.EPOLLOUT`. -/
def EPOLLOUT : Nat := 4

/-- Value of `unix.EPOLLERR`. -/
def EPOLLERR : Nat := 8

/-- Value of `unix.EPOLLHUP`. -/
def EPOLLHUP : Nat := 16

/-- Modelled from the spec: the kernel state behind the Multiplexer of §4.1, which is
not in the repository (the package only calls `golang.org/x/sys/unix`).
`files` are the open descriptors that are not epoll instances (all taken to be
pollable), `epolls` the open epoll descriptors, each with its interest list
(target fd and the event registered for it), `nofile` the descriptor-table limit,
`ready` the readiness bits each descriptor shows by the end of a wait, and
`signal` whether a signal is delivered to a wait that has to sleep. -/
structure Kernel where
  files : List Int
  epolls : List (Int × List (Int × EpollEvent))
  nofile : Nat
  ready : List (Int × Nat)
  signal : Bool
  deriving DecidableEq

/-- Modelled from the spec: "fd is open" of §4.1: `fd` names an open descriptor. -/
def Kernel.isOpen (K : Kernel) (fd : Int) : Bool :=
  K.files.contains fd || (K.epolls.lookup fd).isSome

/-- Modelled from the spec: the interest list is that of §3; `fd` is in the interest
list of the epoll instance `epfd`. -/
def Kernel.registered (K : Kernel) (epfd fd : Int) : Bool :=
  match K.epolls.lookup epfd with
  | some l => (l.lookup fd).isSome
  | none => false

/-- Modelled from the spec: replace the interest list of the epoll instance `epfd`. -/
def Kernel.setInterest (K : Kernel) (epfd : Int) (l : List (Int × EpollEvent)) : Kernel :=
  { K with epolls := K.epolls.map (fun p => if p.1 = epfd then (p.1, l) else p) }

/-- Modelled from the spec: the lowest descriptor number not in use, which is what
the kernel hands out next. -/
def Kernel.lowestFree (K : Kernel) : Nat :=
  let m := K.files.length + K.epolls.length
  ((List.range (m + 1)).find? (fun (n : Nat) => !K.isOpen (Int.ofNat n))).getD m

/-- Modelled from the spec: `create(flags)` of §4.1 (`epoll_create1(2)` through
`unix.EpollCreate1`): denied with `EINVAL` on unknown flags and with `EMFILE` when the
descriptor table is full, the descriptor returned being `-1` in both cases;
otherwise a new epoll instance with an empty interest list. -/
def Kernel.epollCreate1 (K : Kernel) (flags : Int) : Kernel × Int × Option Errno :=
  if flags ≠ 0 ∧ flags ≠ EPOLL_CLOEXEC then (K, -1, some EINVAL)
  else if K.nofile ≤ K.lowestFree then (K, -1, some EMFILE)
  else ({ K with epolls := K.epolls ++ [(Int.ofNat K.lowestFree, [])] }, Int.ofNat K.lowestFree, none)

/-- Modelled from the spec: `register/modify/deregister` of §4.1 (`epoll_ctl(2)`
through `unix.EpollCtl`), in the order the kernel checks: the event is read unless
the operation is `EPOLL_CTL_DEL` (`EFAULT` on a nil pointer); both descriptors
must be open (`EBADF`, the spec's InvalidDescriptor); `epfd` must be an epoll
instance other than `fd` (`EINVAL`); then `ADD` fails with `EEXIST` on a
registered fd (AlreadyRegistered), `DEL` and `MOD` with `ENOENT` on an
unregistered one (NotRegistered), and any other operation with `EINVAL`. -/
def Kernel.epollCtl (K : Kernel) (epfd op fd : Int) (ev : Option EpollEvent) :
    Kernel × Option Errno :=
  if op ≠ EPOLL_CTL_DEL ∧ ev = none then (K, some EFAULT)
  else if !K.isOpen epfd || !K.isOpen fd then (K, some EBADF)
  else
    match K.epolls.lookup epfd with
    | none => (K, some EINVAL)
    | some l =>
      if fd = epfd then (K, some EINVAL)
      else if op = EPOLL_CTL_ADD then
        match ev with
        | none => (K, some EFAULT)
        | some e =>
          if (l.lookup fd).isSome then (K, some EEXIST)
          else (K.setInterest epfd (l ++ [(fd, e)]), none)
      else if op = EPOLL_CTL_DEL then
        if (l.lookup fd).isSome then (K.setInterest epfd (l.filter (fun p => p.1 ≠ fd)), none)
        else (K, some ENOENT)
      else if op = EPOLL_CTL_MOD then
        match ev with
        | none => (K, some EFAULT)
        | some e =>
          if (l.lookup fd).isSome then
            (K.setInterest epfd (l.map (fun p => if p.1 = fd then (fd, e) else p)), none)
          else (K, some ENOENT)
      else (K, some EINVAL)

/-- Modelled from the spec: the ready set of §4.1: for each entry of the interest
list whose descriptor shows a bit it asked for (or an error or hang-up, which are
always reported), the event to deliver, carrying the data registered with it. -/
def Kernel.pending (K : Kernel) (l : List (Int × EpollEvent)) : List EpollEvent :=
  l.filterMap (fun p =>
    let got := ((K.ready.lookup p.1).getD 0) &&& (p.2.Events ||| EPOLLERR ||| EPOLLHUP)
    if got = 0 then none else some { Events := got, Fd := p.2.Fd, Pad := p.2.Pad })

/-- Modelled from the spec: `wait(handle, capacity, timeoutMillis)` of §4.1
(`epoll_wait(2)` through `unix.EpollWait`, capacity being `len(events)`).  A failed
call returns the count `-1`: `EINVAL` on an empty buffer or a handle that is not an
epoll instance, `EBADF` on a closed handle, `EINTR` when a signal arrives while
the call sleeps.  Ready events fill the front of the buffer, at most its length;
with none ready the call returns `0` at once for timeout `0`, after the timeout
for a positive one, and never for a negative one (`none`). -/
def Kernel.epollWait (K : Kernel) (epfd : Int) (events : List EpollEvent) (msec : Int) :
    Option (Kernel × List EpollEvent × Int × Option Errno) :=
  if events.length = 0 then some (K, events, -1, some EINVAL)
  else if !K.isOpen epfd then some (K, events, -1, some EBADF)
  else
    match K.epolls.lookup epfd with
    | none => some (K, events, -1, some EINVAL)
    | some l =>
      let got := (K.pending l).take events.length
      if got.length ≠ 0 then some (K, got ++ events.drop got.length, Int.ofNat got.length, none)
      else if msec = 0 then some (K, events, 0, none)
      else if K.signal then some ({ K with signal := false }, events, -1, some EINTR)
      else if 0 < msec then some (K, events, 0, none)
      else none

/-- Modelled from the spec: the three calls of `golang.org/x/sys/unix` over the
kernel model. -/
def linux : Unix Kernel where
  EpollCreate1 := Kernel.epollCreate1
  EpollCtl := Kernel.epollCtl
  EpollWait := Kernel.epollWait

/-- A kernel state for the examples: descriptors 0, 1, 2 and 5 open, one epoll
instance on descriptor 3 with an empty interest list, nothing ready. -/
def K0 : Kernel :=
  { files := [0, 1, 2, 5], epolls := [(3, [])], nofile := 1024, ready := [], signal := false }

/-- The kernel state `K0` with the descriptor table full: the limit is 4 and the
descriptors 0 to 3 are in use. -/
def Kfull : Kernel :=
  { K0 with nofile := 4 }

/-- The kernel state `K0` with a signal due while a wait sleeps. -/
def Ksig : Kernel :=
  { K0 with signal := true }

/-- The kernel state `K0` after descriptor 5 was registered for `EPOLLIN` with the
epoll instance 3. -/
def K5 : Kernel :=
  { K0 with epolls := [(3, [(5, { Events := EPOLLIN, Fd := 5, Pad := 0 })])] }

/-- The kernel state `K5` with descriptor 5 readable. -/
def K5r : Kernel :=
  { K5 with ready := [(5, EPOLLIN)] }

/-- The kernel state `K0` after descriptor 5 was registered for `EPOLLOUT` with the
epoll instance 3. -/
def K5out : Kernel :=
  { K0 with epolls := [(3, [(5, { Events := EPOLLOUT, Fd := 5, Pad := 0 })])] }

/-- The zero value of `unix.EpollEvent`, as in a freshly made `events` slice. -/
def zeroEvent : EpollEvent :=
  { Events := 0, Fd := 0, Pad := 0 }

/-! ## The wrappers are forwards -/

/-- C1: `Add`, `Mod` and `Del` are `Ctl` with `EPOLL_CTL_ADD`, `EPOLL_CTL_MOD` and
`EPOLL_CTL_DEL`; `Ctl` is the underlying control call on `(i.Fd, op, fd, ev)`: over
every kernel it leaves the state and returns the error that call does (nil iff
that call returned nil), and over a journalled kernel it adds exactly the one
entry `epollCtl i.Fd op fd ev`, with `fd` and `ev` (nil included) as given. -/
theorem ctl_family_forwards {σ : Type} (k : Unix σ) (s : σ) (log : List Syscall)
    (i : Instance) (op fd : Int) (ev : Option EpollEvent) :
    i.Add k s fd ev = i.Ctl k s EPOLL_CTL_ADD fd ev ∧
    i.Mod k s fd ev = i.Ctl k s EPOLL_CTL_MOD fd ev ∧
    i.Del k s fd ev = i.Ctl k s EPOLL_CTL_DEL fd ev ∧
    i.Ctl k s op fd ev = k.EpollCtl s i.Fd op fd ev ∧
    ((i.Ctl k s op fd ev).2 = none ↔ (k.EpollCtl s i.Fd op fd ev).2 = none) ∧
    i.Ctl k.logged (s, log) op fd ev =
      (((k.EpollCtl s i.Fd op fd ev).1, log ++ [Syscall.epollCtl i.Fd op fd ev]),
        (k.EpollCtl s i.Fd op fd ev).2) :=
  ⟨rfl, rfl, rfl, rfl, Iff.rfl, rfl⟩

/-- C3: `Wait(events, timeout)` is the underlying wait call on `(i.Fd, events, timeout)`
for every timeout (zero and negative included): it returns what that call returns,
count and error untouched, and over a journalled kernel the call adds exactly one
entry, `epollWait i.Fd events timeout`, to the journal. -/
theorem wait_forwards_once {σ : Type} (k : Unix σ) (s : σ) (log : List Syscall)
    (i : Instance) (events : List EpollEvent) (timeout : Int) :
    i.Wait k s events timeout = k.EpollWait s i.Fd events timeout ∧
    i.Wait k.logged (s, log) events timeout =
      (k.EpollWait s i.Fd events timeout).map
        (fun r => ((r.1, log ++ [Syscall.epollWait i.Fd events timeout]), r.2)) :=
  ⟨rfl, rfl⟩

/-- C2 (as amended): when the underlying wait call reports `EINTR`, `Wait` returns that
very result, `EINTR` included, after a single call: the journal gains one
`epollWait` entry and nothing else. -/
theorem wait_surfaces_eintr {σ : Type} (k : Unix σ) (s s' : σ) (log : List Syscall)
    (i : Instance) (events buf : List EpollEvent) (timeout n : Int)
    (h : k.EpollWait s i.Fd events timeout = some (s', buf, n, some EINTR)) :
    i.Wait k s events timeout = some (s', buf, n, some EINTR) ∧
    i.Wait k.logged (s, log) events timeout =
      some ((s', log ++ [Syscall.epollWait i.Fd events timeout]), buf, n, some EINTR) := by
  refine ⟨h, ?_⟩
  show Option.map _ (k.EpollWait s i.Fd events timeout) = _
  rw [h]
  rfl

/-- C2 (witness): on the kernel model, a signal delivered to a sleeping wait on the
epoll instance 3 comes back from `Wait` as `EINTR`, after one call. -/
theorem wait_surfaces_eintr_witness :
    Instance.Wait linux Ksig ⟨3⟩ [⟨0, 0, 0⟩] 100 =
      some (K0, [⟨0, 0, 0⟩], -1, some EINTR) ∧
    Instance.Wait linux.logged (Ksig, []) ⟨3⟩ [⟨0, 0, 0⟩] 100 =
      some ((K0, [Syscall.epollWait 3 [⟨0, 0, 0⟩] 100]), [⟨0, 0, 0⟩], -1, some EINTR) :=
  wait_surfaces_eintr linux Ksig K0 [] ⟨3⟩ [⟨0, 0, 0⟩] [⟨0, 0, 0⟩]
    100 (-1) (by decide)

/-- C2 (counterexample): "`Wait` never returns the interruption error" fails: on the
kernel model with a signal pending, `Wait` on the epoll instance 3 with a one-slot
buffer and a 100 ms timeout returns count `-1` and the error `EINTR`. -/
theorem wait_returns_eintr :
    ¬ (∀ (K : Kernel) (i : Instance) (events : List EpollEvent) (timeout : Int)
        (r : Kernel × List EpollEvent × Int × Option Errno),
        Instance.Wait linux K i events timeout = some r → r.2.2.2 ≠ some EINTR) := by
  intro h
  exact h Ksig ⟨3⟩ [⟨0, 0, 0⟩] 100 (K0, [⟨0, 0, 0⟩], -1, some EINTR)
    (by decide) rfl

/-! ## NewInstance -/

/-- C5: `NewInstance(flags)` returns the error of the underlying create call, so its
error is non-nil if and only if that call was denied; when the call succeeds the
error is nil and the Instance holds the descriptor the call returned. -/
theorem newInstance_error_iff {σ : Type} (k : Unix σ) (s : σ) (flags : Int) :
    (NewInstance k s flags).2.2 = (k.EpollCreate1 s flags).2.2 ∧
    ((NewInstance k s flags).2.2 ≠ none ↔ (k.EpollCreate1 s flags).2.2 ≠ none) ∧
    ((k.EpollCreate1 s flags).2.2 = none →
      (NewInstance k s flags).2.2 = none ∧
      (NewInstance k s flags).2.1 = some { Fd := (k.EpollCreate1 s flags).2.1 }) :=
  ⟨rfl, Iff.rfl, fun h => ⟨h, rfl⟩⟩

/-- C5 (witness): on the kernel model, creation in `K0` succeeds with descriptor 4:
nil error and an Instance with `Fd = 4`. -/
theorem newInstance_error_iff_witness :
    (NewInstance linux K0 0).2.2 = none ∧
    (NewInstance linux K0 0).2.1 = some { Fd := (linux.EpollCreate1 K0 0).2.1 } :=
  (newInstance_error_iff linux K0 0).2.2 (by decide)

/-- C10: `NewInstance(flags)` returns a non-nil Instance whatever the create call
answers, and its `Fd` is the descriptor that call returned; on the kernel model a
failed create leaves `Fd = -1`, so only the error tells failure. -/
theorem newInstance_never_nil {σ : Type} (k : Unix σ) (s : σ) (flags : Int)
    (K : Kernel) (flags' : Int) :
    (NewInstance k s flags).2.1 ≠ none ∧
    (NewInstance k s flags).2.1 = some { Fd := (k.EpollCreate1 s flags).2.1 } ∧
    ((NewInstance linux K flags').2.2 ≠ none →
      (NewInstance linux K flags').2.1 = some { Fd := -1 }) := by
  refine ⟨by simp [NewInstance], rfl, ?_⟩
  simp only [NewInstance, linux, Kernel.epollCreate1]
  split
  · intro _; rfl
  · split
    · intro _; rfl
    · intro h; exact absurd rfl h

/-- C10 (witness): with the descriptor table full, `NewInstance(0)` returns `EMFILE`
together with a non-nil Instance whose `Fd` is `-1`. -/
theorem newInstance_never_nil_witness :
    (NewInstance linux Kfull 0).2.2 = some EMFILE ∧
    (NewInstance linux Kfull 0).2.1 = some { Fd := -1 } :=
  ⟨by decide, (newInstance_never_nil linux Kfull 0 Kfull 0).2.2 (by decide)⟩

/-! ## MakeEvent -/

/-- C9: `MakeEvent(fd, events)` returns a non-nil event with `Events = events` and
`Fd = int32(fd)`: the value congruent to `fd` modulo `2^32` in the signed 32-bit
range.  So `Fd = fd` if and only if `-2^31 ≤ fd ≤ 2^31 - 1`, and an `fd` outside that
range is stored as a different number. -/
theorem makeEvent_fd_int32 (fd : Int) (events : Nat) :
    ∃ ev : EpollEvent, MakeEvent fd events = some ev ∧
      ev.Events = events ∧
      ev.Fd = toInt32 fd ∧
      (ev.Fd - fd) % 2 ^ 32 = 0 ∧ -2 ^ 31 ≤ ev.Fd ∧ ev.Fd ≤ 2 ^ 31 - 1 ∧
      (ev.Fd = fd ↔ -2 ^ 31 ≤ fd ∧ fd ≤ 2 ^ 31 - 1) ∧
      (fd < -2 ^ 31 ∨ 2 ^ 31 - 1 < fd → ev.Fd ≠ fd) := by
  refine ⟨{ Events := events, Fd := toInt32 fd, Pad := 0 }, rfl, rfl, rfl, ?_⟩
  simp only [toInt32]
  norm_num
  omega

/-- C9 (witness): `fd = 2^32 + 5` lies outside the 32-bit range, and the event made
from it carries `Fd = 5`. -/
theorem makeEvent_fd_int32_witness :
    MakeEvent (2 ^ 32 + 5) EPOLLIN = some { Events := EPOLLIN, Fd := 5, Pad := 0 } ∧
    ∃ ev : EpollEvent, MakeEvent (2 ^ 32 + 5) EPOLLIN = some ev ∧ ev.Fd ≠ 2 ^ 32 + 5 := by
  obtain ⟨ev, h1, _, _, _, _, _, _, h⟩ := makeEvent_fd_int32 (2 ^ 32 + 5) EPOLLIN
  exact ⟨by decide, ev, h1, h (Or.inr (by norm_num))⟩

/-! ## The wrappers over the kernel model -/

/-- The control call of the kernel model fails, leaving the state as it was, when
the target is not open. -/
theorem epollCtl_not_open (K : Kernel) (epfd op fd : Int) (ev : Option EpollEvent)
    (h : K.isOpen fd = false) : ∃ e, K.epollCtl epfd op fd ev = (K, some e) := by
  unfold Kernel.epollCtl
  split
  · exact ⟨_, rfl⟩
  · simp [h]

/-- `EPOLL_CTL_ADD` of the kernel model fails, leaving the state as it was, when the
target is already in the interest list. -/
theorem epollCtl_add_registered (K : Kernel) (epfd fd : Int) (ev : Option EpollEvent)
    (h : K.registered epfd fd = true) :
    ∃ e, K.epollCtl epfd EPOLL_CTL_ADD fd ev = (K, some e) := by
  unfold Kernel.registered at h
  unfold Kernel.epollCtl
  split
  · exact ⟨_, rfl⟩
  · split
    · exact ⟨_, rfl⟩
    · cases hl : K.epolls.lookup epfd with
      | none => simp [hl] at h
      | some l =>
        simp only [hl] at h
        simp only []
        split
        · exact ⟨_, rfl⟩
        · cases ev with
          | none => exact ⟨EFAULT, by simp⟩
          | some e => exact ⟨EEXIST, by simp [h]⟩

/-- `EPOLL_CTL_DEL` and `EPOLL_CTL_MOD` of the kernel model fail, leaving the state as
it was, when the target is not in the interest list. -/
theorem epollCtl_del_mod_unregistered (K : Kernel) (epfd op fd : Int)
    (ev : Option EpollEvent) (hop : op = EPOLL_CTL_DEL ∨ op = EPOLL_CTL_MOD)
    (h : K.registered epfd fd = false) :
    ∃ e, K.epollCtl epfd op fd ev = (K, some e) := by
  unfold Kernel.registered at h
  unfold Kernel.epollCtl
  split
  · exact ⟨_, rfl⟩
  · split
    · exact ⟨_, rfl⟩
    · cases hl : K.epolls.lookup epfd with
      | none => exact ⟨_, rfl⟩
      | some l =>
        simp only [hl] at h
        simp only []
        split
        · exact ⟨_, rfl⟩
        · rcases hop with rfl | rfl
          · exact ⟨ENOENT, by simp [h, EPOLL_CTL_ADD, EPOLL_CTL_DEL]⟩
          · cases ev with
            | none => exact ⟨EFAULT, by simp [EPOLL_CTL_ADD, EPOLL_CTL_DEL, EPOLL_CTL_MOD]⟩
            | some e => exact ⟨ENOENT, by simp [h, EPOLL_CTL_ADD, EPOLL_CTL_DEL, EPOLL_CTL_MOD]⟩

/-- C6: over the kernel model, for every Instance, target `fd` and event pointer:
`Add`, `Mod` and `Del` return a non-nil error when `fd` is not open; `Add` returns a
non-nil error when `fd` is already in the Instance's interest list; `Del` and `Mod`
return a non-nil error when `fd` is not in it; and each of these failing calls
returns the kernel state, interest lists included, as it was. -/
theorem ctl_misuse_rejected (K : Kernel) (i : Instance) (fd : Int) (ev : Option EpollEvent) :
    (K.isOpen fd = false →
      (∃ e, i.Add linux K fd ev = (K, some e)) ∧
      (∃ e, i.Mod linux K fd ev = (K, some e)) ∧
      (∃ e, i.Del linux K fd ev = (K, some e))) ∧
    (K.registered i.Fd fd = true → ∃ e, i.Add linux K fd ev = (K, some e)) ∧
    (K.registered i.Fd fd = false →
      (∃ e, i.Del linux K fd ev = (K, some e)) ∧
      (∃ e, i.Mod linux K fd ev = (K, some e))) :=
  ⟨fun h => ⟨epollCtl_not_open K i.Fd EPOLL_CTL_ADD fd ev h,
      epollCtl_not_open K i.Fd EPOLL_CTL_MOD fd ev h,
      epollCtl_not_open K i.Fd EPOLL_CTL_DEL fd ev h⟩,
    fun h => epollCtl_add_registered K i.Fd fd ev h,
    fun h => ⟨epollCtl_del_mod_unregistered K i.Fd EPOLL_CTL_DEL fd ev (Or.inl rfl) h,
      epollCtl_del_mod_unregistered K i.Fd EPOLL_CTL_MOD fd ev (Or.inr rfl) h⟩⟩

/-- C6 (witness): in `K5` descriptor 7 is not open, descriptor 5 is registered with the
epoll instance 3 and descriptor 2 is open but not registered: `Add`, `Mod` and `Del`
of 7, `Add` of 5, and `Del` and `Mod` of 2 all fail and leave `K5` as it was. -/
theorem ctl_misuse_rejected_witness :
    ((∃ e, Instance.Add linux K5 ⟨3⟩ 7 (MakeEvent 7 EPOLLIN) = (K5, some e)) ∧
      (∃ e, Instance.Mod linux K5 ⟨3⟩ 7 (MakeEvent 7 EPOLLIN) = (K5, some e)) ∧
      (∃ e, Instance.Del linux K5 ⟨3⟩ 7 (MakeEvent 7 EPOLLIN) = (K5, some e))) ∧
    (∃ e, Instance.Add linux K5 ⟨3⟩ 5 (MakeEvent 5 EPOLLOUT) = (K5, some e)) ∧
    ((∃ e, Instance.Del linux K5 ⟨3⟩ 2 none = (K5, some e)) ∧
      (∃ e, Instance.Mod linux K5 ⟨3⟩ 2 none = (K5, some e))) :=
  ⟨(ctl_misuse_rejected K5 ⟨3⟩ 7 (MakeEvent 7 EPOLLIN)).1 (by decide),
    (ctl_misuse_rejected K5 ⟨3⟩ 5 (MakeEvent 5 EPOLLOUT)).2.1 (by decide),
    (ctl_misuse_rejected K5 ⟨3⟩ 2 none).2.2 (by decide)⟩

/-- The wait call of the kernel model: a returned count is `-1` with an error, or
between `0` and the buffer length with none, and the buffer keeps its length. -/
theorem epollWait_count (K : Kernel) (epfd : Int) (events : List EpollEvent) (msec : Int)
    (r : Kernel × List EpollEvent × Int × Option Errno)
    (h : K.epollWait epfd events msec = some r) :
    (r.2.2.2 = none ∧ 0 ≤ r.2.2.1 ∧ r.2.2.1 ≤ events.length) ∨
    (r.2.2.2 ≠ none ∧ r.2.2.1 = -1) := by
  unfold Kernel.epollWait at h
  split at h
  · cases h; exact Or.inr ⟨by simp, rfl⟩
  · split at h
    · cases h; exact Or.inr ⟨by simp, rfl⟩
    · split at h
      · cases h; exact Or.inr ⟨by simp, rfl⟩
      · simp only [] at h
        split at h
        · cases h
          refine Or.inl ⟨rfl, ?_, ?_⟩
          · exact Int.ofNat_nonneg _
          · simp only [List.length_take]
            exact Int.ofNat_le.mpr (Nat.min_le_left _ _)
        · split at h
          · cases h; exact Or.inl ⟨rfl, le_refl _, Int.ofNat_nonneg _⟩
          · split at h
            · cases h; exact Or.inr ⟨by simp, rfl⟩
            · split at h
              · cases h; exact Or.inl ⟨rfl, le_refl _, Int.ofNat_nonneg _⟩
              · cases h

/-- The wait call of the kernel model on quiescence: a valid epoll instance, a
non-empty buffer, no entry of the interest list ready, a timeout that is not
negative and no signal cutting a sleep short give the count `0` and no error. -/
theorem epollWait_quiescent (K : Kernel) (epfd : Int) (events : List EpollEvent)
    (msec : Int) (l : List (Int × EpollEvent)) (hl : K.epolls.lookup epfd = some l)
    (hq : K.pending l = []) (hne : events ≠ []) (ht : 0 ≤ msec)
    (hs : K.signal = false ∨ msec = 0) :
    K.epollWait epfd events msec = some (K, events, 0, none) := by
  have hlen : events.length ≠ 0 := fun h => hne (List.length_eq_zero.mp h)
  have hopen : K.isOpen epfd = true := by simp [Kernel.isOpen, hl]
  unfold Kernel.epollWait
  rw [if_neg hlen]
  simp only [hopen, hl, hq]
  by_cases h0 : msec = 0
  · simp [h0]
  · rcases hs with hs | hs
    · have : 0 < msec := lt_of_le_of_ne ht (Ne.symm h0)
      simp [h0, hs, this]
    · exact absurd hs h0

/-- C7 (as amended): over the kernel model, whenever `Wait` returns, its count `n` is
between `0` and `len(events)` if the error is nil and is `-1` if it is not; and
when the Instance is an open epoll instance, the buffer is not empty, the timeout
is not negative, no signal cuts a sleep short and no registered fd is ready,
`Wait` returns `n = 0` with a nil error and the buffer untouched. -/
theorem wait_count_bounds (K : Kernel) (i : Instance) (events : List EpollEvent)
    (timeout : Int) :
    (∀ r : Kernel × List EpollEvent × Int × Option Errno,
      i.Wait linux K events timeout = some r →
        (r.2.2.2 = none → 0 ≤ r.2.2.1 ∧ r.2.2.1 ≤ events.length) ∧
        (r.2.2.2 ≠ none → r.2.2.1 = -1)) ∧
    (∀ l : List (Int × EpollEvent),
      K.epolls.lookup i.Fd = some l → K.pending l = [] → events ≠ [] → 0 ≤ timeout →
        (K.signal = false ∨ timeout = 0) →
        i.Wait linux K events timeout = some (K, events, 0, none)) := by
  refine ⟨fun r h => ?_, fun l hl hq hne ht hs => ?_⟩
  · rcases epollWait_count K i.Fd events timeout r h with ⟨he, h0, hc⟩ | ⟨he, hn⟩
    · exact ⟨fun _ => ⟨h0, hc⟩, fun hx => absurd he hx⟩
    · exact ⟨fun hx => absurd hx he, fun _ => hn⟩
  · exact epollWait_quiescent K i.Fd events timeout l hl hq hne ht hs

/-- C7 (witness): with descriptor 5 readable, `Wait` on a two-slot buffer returns one
event, and `0 ≤ 1 ≤ 2`; with nothing ready and a 100 ms timeout it returns `0` and
no error. -/
theorem wait_count_bounds_witness :
    Instance.Wait linux K5r ⟨3⟩ [zeroEvent, zeroEvent] (-1) =
      some (K5r, [{ Events := EPOLLIN, Fd := 5, Pad := 0 }, zeroEvent], 1, none) ∧
    ((0 : Int) ≤ 1 ∧ (1 : Int) ≤ ([zeroEvent, zeroEvent] : List EpollEvent).length) ∧
    Instance.Wait linux K5 ⟨3⟩ [zeroEvent] 100 = some (K5, [zeroEvent], 0, none) :=
  ⟨by decide,
    ((wait_count_bounds K5r ⟨3⟩ [zeroEvent, zeroEvent] (-1)).1
      (K5r, [{ Events := EPOLLIN, Fd := 5, Pad := 0 }, zeroEvent], 1, none) (by decide)).1 rfl,
    (wait_count_bounds K5 ⟨3⟩ [zeroEvent] 100).2
      [(5, { Events := EPOLLIN, Fd := 5, Pad := 0 })] (by decide) (by decide) (by decide)
      (by decide) (Or.inl rfl)⟩

/-- C7 (counterexample): with an empty buffer and timeout `0` on the epoll instance 3,
nothing being registered or ready, `Wait` returns the count `-1` and `EINVAL`, and
on a descriptor that is not open it returns `-1` and `EBADF`; so `0 ≤ n` does not
hold for every buffer and timeout, and quiescence does not always give `n = 0`
with a nil error. -/
theorem wait_count_negative :
    Instance.Wait linux K0 ⟨3⟩ [] 0 = some (K0, [], -1, some EINVAL) ∧
    Instance.Wait linux K0 ⟨9⟩ [zeroEvent] 0 = some (K0, [zeroEvent], -1, some EBADF) ∧
    ¬ (∀ (K : Kernel) (i : Instance) (events : List EpollEvent) (timeout : Int)
        (r : Kernel × List EpollEvent × Int × Option Errno),
        Instance.Wait linux K i events timeout = some r →
          0 ≤ r.2.2.1 ∧ r.2.2.1 ≤ events.length) := by
  refine ⟨by decide, by decide, fun h => ?_⟩
  have h1 := (h K0 ⟨3⟩ [] 0 (K0, [], -1, some EINVAL) (by decide)).1
  exact absurd h1 (by decide)

/-- C4 (the code at the failing input): on the kernel model `Ctl` with
`EPOLL_CTL_ADD` on descriptor 5 returns `EFAULT` and registers nothing for a nil
event, registers 5 for `EPOLLIN` for an `EPOLLIN` event and for `EPOLLOUT` for an
`EPOLLOUT` event, and the journal shows the event handed on to the control call;
so the result and the interest list depend on `ev`. -/
theorem ctl_depends_on_ev :
    Instance.Ctl linux K0 ⟨3⟩ EPOLL_CTL_ADD 5 none = (K0, some EFAULT) ∧
    Instance.Ctl linux K0 ⟨3⟩ EPOLL_CTL_ADD 5 (MakeEvent 5 EPOLLIN) = (K5, none) ∧
    Instance.Ctl linux K0 ⟨3⟩ EPOLL_CTL_ADD 5 (MakeEvent 5 EPOLLOUT) = (K5out, none) ∧
    Instance.Ctl linux.logged (K0, []) ⟨3⟩ EPOLL_CTL_ADD 5 (MakeEvent 5 EPOLLIN) =
      ((K5, [Syscall.epollCtl 3 EPOLL_CTL_ADD 5
        (some { Events := EPOLLIN, Fd := 5, Pad := 0 })]), none) ∧
    ¬ (∀ (K : Kernel) (i : Instance) (op fd : Int) (ev1 ev2 : Option EpollEvent),
        Instance.Ctl linux K i op fd ev1 = Instance.Ctl linux K i op fd ev2) := by
  refine ⟨by decide, by decide, by decide, by decide, fun h => ?_⟩
  have h1 := h K0 ⟨3⟩ EPOLL_CTL_ADD 5 none (MakeEvent 5 EPOLLIN)
  exact absurd h1 (by decide)

end Epoll
